import Mathlib

/-!
Shallow embedding of the `mzml_writer` package (files
`controlled_vocabulary.py` and `components.py`) and proofs about the
behaviour its specification describes.

Conventions of the embedding:
* Python strings are Lean `String`s; the string helpers below re-implement
  the exact Python primitives used by the source (`str.strip`, `str.split`,
  `str.partition`, `str.lower`, `str.upper`) by structural recursion over
  `List Char`, so that every definition evaluates inside the kernel.
  ASCII inputs are assumed (Python's case mapping and the source's data
  are ASCII).
* Python `dict`s are association lists updated by `dictInsert`
  (overwrite-in-place, append-if-new), looked up with `List.lookup`;
  this matches insertion-ordered `dict` semantics for the operations used.
* Raised exceptions become `Except` errors; an exception type that the
  source never catches is carried as the error payload.
-/

/-- Python's whitespace set for `str.strip` and the regex class `\s`. -/
def isPySpace (c : Char) : Bool :=
  c = ' ' || c = '\t' || c = '\n' || c = '\r' || c = '\x0b' || c = '\x0c'

/-- Python `str.strip()`. -/
def pyStrip (s : String) : String :=
  ⟨((s.data.dropWhile isPySpace).reverse.dropWhile isPySpace).reverse⟩

/-- ASCII lower-casing of one character, as Python `str.lower` does on ASCII. -/
def pyLowerChar (c : Char) : Char :=
  if 65 ≤ c.toNat ∧ c.toNat ≤ 90 then Char.ofNat (c.toNat + 32) else c

/-- Python `str.lower()` (ASCII). -/
def pyLower (s : String) : String :=
  ⟨s.data.map pyLowerChar⟩

/-- ASCII upper-casing of one character, as Python `str.upper` does on ASCII. -/
def pyUpperChar (c : Char) : Char :=
  if 97 ≤ c.toNat ∧ c.toNat ≤ 122 then Char.ofNat (c.toNat - 32) else c

/-- Python `str.upper()` (ASCII). -/
def pyUpper (s : String) : String :=
  ⟨s.data.map pyUpperChar⟩

/-- Helper of `pySplitChar`: split a character list at every separator. -/
def splitCharAux (sep : Char) : List Char → List Char → List (List Char)
  | [], acc => [acc.reverse]
  | c :: rest, acc =>
    if c = sep then acc.reverse :: splitCharAux sep rest []
    else splitCharAux sep rest (c :: acc)

/-- Python `str.split(sep)` for a one-character separator. -/
def pySplitChar (s : String) (sep : Char) : List String :=
  (splitCharAux sep s.data []).map fun l => ⟨l⟩

/-- Helper of `partitionColon`: find the first `':'`. -/
def partitionColonAux : List Char → Option (List Char × List Char)
  | [] => none
  | c :: rest =>
    if c = ':' then some ([], rest)
    else
      match partitionColonAux rest with
      | some (k, v) => some (c :: k, v)
      | none => none

/-- Python `line.partition(":")`, keeping only the before/after parts
the source uses. -/
def partitionColon (s : String) : String × String :=
  match partitionColonAux s.data with
  | some (k, v) => (⟨k⟩, ⟨v⟩)
  | none => (s, "")

/-- `dict.__setitem__` on an insertion-ordered association list. -/
def dictInsert {α β : Type} [DecidableEq α] : List (α × β) → α → β → List (α × β)
  | [], k, v => [(k, v)]
  | (k', v') :: rest, k, v =>
    if k' = k then (k, v) :: rest else (k', v') :: dictInsert rest k v

/-- `Reference` (controlled_vocabulary.py): accession plus optional comment. -/
structure Reference where
  accession : String
  comment : Option String
deriving DecidableEq, Repr

/-- `Reference.fromstring`: split on `"!"`; when the split does not give
exactly two pieces the tuple unpacking raises and the bare `except` stores
the whole string as the accession with no comment. -/
def Reference.fromstring (s : String) : Reference :=
  match (pySplitChar s '!').map pyStrip with
  | [a, c] => ⟨a, some c⟩
  | _ => ⟨s, none⟩

/-- `Relationship` (controlled_vocabulary.py). -/
structure Relationship where
  predicate : String
  accession : String
  comment : Option String
deriving DecidableEq, Repr

/-- Maximal run of non-whitespace characters (regex `\S+`) and the rest. -/
def takeRun : List Char → List Char × List Char
  | [] => ([], [])
  | c :: rest =>
    if isPySpace c then ([], c :: rest)
    else
      let (r, t) := takeRun rest
      (c :: r, t)

/-- All splits `(run.take k, run.drop k)` for `k` from `run.length` down
to `1`: the backtracking order of a greedy `\S+`. -/
def splitsDesc (run : List Char) : List (List Char × List Char) :=
  (List.range run.length).map fun i =>
    let k := run.length - i
    (run.take k, run.drop k)

/-- Matcher for the suffix `\s(?P<accession>\S+)\s(?:!\s(?P<comment>.*))` of
the relationship pattern, returning the two captures. -/
def matchAfterPred (cs : List Char) : Option (String × String) :=
  match cs with
  | [] => none
  | w :: rest =>
    if isPySpace w then
      let (run, rest2) := takeRun rest
      (splitsDesc run).findSome? fun p =>
        match p.2 ++ rest2 with
        | w2 :: b :: w3 :: comment =>
          if isPySpace w2 && (b = '!') && isPySpace w3 then
            some (⟨p.1⟩, ⟨comment⟩)
          else none
        | _ => none
    else none

/-- Matcher for `(?P<predicate>\S+):?\s...` anchored at the current
position: greedy predicate lengths first; for each, the optional colon is
tried consumed-first (after a maximal `\S+` the next character is never a
colon, and after a shorter cut the un-consumed alternative dies on the
following mandatory `\s`, exactly as the backtracking engine does). -/
def matchAtPos (cs : List Char) : Option (String × String × String) :=
  let (run, rest) := takeRun cs
  (splitsDesc run).findSome? fun p =>
    match p.2 ++ rest with
    | ':' :: t =>
      match matchAfterPred t with
      | some (a, c) => some (⟨p.1⟩, a, c)
      | none =>
        match matchAfterPred (p.2 ++ rest) with
        | some (a, c) => some (⟨p.1⟩, a, c)
        | none => none
    | other =>
      match matchAfterPred other with
      | some (a, c) => some (⟨p.1⟩, a, c)
      | none => none

/-- `re.search` of the relationship pattern: leftmost starting position
wins, single-line subject. -/
def searchRel : List Char → Option (String × String × String)
  | [] => none
  | c :: rest =>
    match matchAtPos (c :: rest) with
    | some r => some r
    | none => searchRel rest

/-- `Relationship.fromstring`: `re.search(...)` then `.groupdict()`.
The comment group is not optional in the pattern, so a subject without
an `!` part makes `search` return `None` and the attribute access on
`None` raises (modelled as the error case). -/
def Relationship.fromstring (s : String) : Except String Relationship :=
  match searchRel s.data with
  | some (p, a, c) => .ok ⟨p, a, some c⟩
  | none => .error "AttributeError"

/-- Decidable equality of `Except` results, so concrete evaluations can be
settled by `decide`. -/
instance {ε α : Type} [DecidableEq ε] [DecidableEq α] : DecidableEq (Except ε α) := fun x y =>
  match x, y with
  | .ok a, .ok b =>
    if h : a = b then .isTrue (by rw [h]) else .isFalse (fun hh => h (by cases hh; rfl))
  | .ok _, .error _ => .isFalse (fun hh => Except.noConfusion hh)
  | .error _, .ok _ => .isFalse (fun hh => Except.noConfusion hh)
  | .error e, .error f =>
    if h : e = f then .isTrue (by rw [h]) else .isFalse (fun hh => h (by cases hh; rfl))

/-- A field value of a `Term` entity: raw scalar, raw sequence, or the
parsed forms substituted by `OBOParser.pack`. -/
inductive FieldValue where
  | str (s : String)
  | strs (l : List String)
  | ref (r : Reference)
  | refs (l : List Reference)
  | rel (r : Relationship)
deriving DecidableEq, Repr

/-- `Entity` (controlled_vocabulary.py): an open field map plus the child
list populated during graph construction.  Children are recorded by the
child term's id (the source appends the child object itself; the object
is the one later stored in the graph under that id). -/
structure Entity where
  fields : List (String × FieldValue)
  children : List String
deriving DecidableEq, Repr

/-- Scalar string field access, `entity[key]` for the places where the
source expects a plain string (`id`, `name`); `none` models `KeyError`. -/
def Entity.getStr (e : Entity) (k : String) : Option String :=
  match List.lookup k e.fields with
  | some (.str s) => some s
  | _ => none

/-- A raw stanza accumulated by `OBOParser.parse`: the `defaultdict(list)`
of field name to the values in encounter order. -/
abbrev RawTerm := List (String × List String)

/-- `self.current_term[key].append(val)` on the `defaultdict(list)`. -/
def rawAdd : RawTerm → String → String → RawTerm
  | [], k, v => [(k, [v])]
  | (k', vs) :: rest, k, v =>
    if k' = k then (k', vs ++ [v]) :: rest else (k', vs) :: rawAdd rest k v

/-- `{k: v[0] if len(v) == 1 else v for k, v in self.current_term.items()}`. -/
def fieldsOfRaw (r : RawTerm) : List (String × FieldValue) :=
  r.map fun kv =>
    (kv.1, match kv.2 with
           | [v] => .str v
           | vs => .strs vs)

/-- The entity's own id, read from the accumulated fields (`entity['id']`). -/
def idStrOf (fields : List (String × FieldValue)) : Option String :=
  match List.lookup "id" fields with
  | some (.str s) => some s
  | _ => none

/-- `self[ref].children.append(entity)`: append the child id to the
parent entity stored under the reference's accession. -/
def appendChild (terms : List (String × Entity)) (parentKey childId : String) :
    List (String × Entity) :=
  terms.map fun kv =>
    if kv.1 = parentKey then (kv.1, ⟨kv.2.fields, kv.2.children ++ [childId]⟩) else kv

/-- The loop `for term in is_as: self[term].children.append(entity)`:
parents are linked one by one; the first parent accession missing from the
graph raises `KeyError` there, leaving the earlier links in place.  The
flag reports whether every parent was found. -/
def appendChildren (terms : List (String × Entity)) (childId : String) :
    List Reference → List (String × Entity) × Bool
  | [] => (terms, true)
  | r :: rs =>
    match List.lookup r.accession terms with
    | none => (terms, false)
    | some _ => appendChildren (appendChild terms r.accession childId) childId rs

/-- The relationship-field step of `pack`: wrap a scalar into a list and
parse each string; a parse failure (the `AttributeError` of
`Relationship.fromstring`) is not a `KeyError`, so it propagates. -/
def relStrings : Option FieldValue → Except String (List Relationship)
  | none => .ok []
  | some (.str s) => (Relationship.fromstring s).map fun r => [r]
  | some (.strs l) => l.mapM Relationship.fromstring
  | some _ => .ok []

/-- `OBOParser.pack` for one accumulated stanza against the current term
dictionary.  The `try/except KeyError: pass` around the `is_a` step means
a missing `is_a` field *and* a missing parent accession are both silently
skipped: in the latter case the entity keeps its raw `is_a` string and is
not linked as a child.  The final `self.terms[entity['id']] = entity`
raises `KeyError` when no `id` field exists. -/
def packRecord (terms : List (String × Entity)) (r : RawTerm) :
    Except String (List (String × Entity)) :=
  let fields0 := fieldsOfRaw r
  let cid := idStrOf fields0
  let step1 :=
    match List.lookup "is_a" fields0 with
    | some (.str s) =>
      let ref := Reference.fromstring s
      match List.lookup ref.accession terms with
      | none => (terms, fields0)
      | some _ =>
        (appendChild terms ref.accession (cid.getD ""),
         dictInsert fields0 "is_a" (.ref ref))
    | some (.strs l) =>
      let refs := l.map Reference.fromstring
      match appendChildren terms (cid.getD "") refs with
      | (t', true) => (t', dictInsert fields0 "is_a" (.refs refs))
      | (t', false) => (t', fields0)
    | _ => (terms, fields0)
  match relStrings (List.lookup "relationship" step1.2) with
  | .error e => .error e
  | .ok rels =>
    let fields2 := rels.foldl (fun fs rl => dictInsert fs rl.predicate (.rel rl)) step1.2
    match idStrOf fields2 with
    | none => .error "KeyError: id"
    | some eid => .ok (dictInsert step1.1 eid ⟨fields2, []⟩)

/-- Emit the in-flight accumulator if there is one (`pack` is a no-op when
`current_term is None`). -/
def closeOf : Option RawTerm → List RawTerm
  | none => []
  | some r => [r]

/-- One line of `OBOParser.parse`: strip, skip blanks, handle the two
stanza headers, and otherwise add a `key: value` field to the current
accumulator — or drop the line when no accumulator is open. -/
def parseStep (st : Option RawTerm × List RawTerm) (line : String) :
    Option RawTerm × List RawTerm :=
  let l := pyStrip line
  if l = "" then st
  else if l = "[Typedef]" then (none, st.2 ++ closeOf st.1)
  else if l = "[Term]" then (some [], st.2 ++ closeOf st.1)
  else
    match st.1 with
    | none => st
    | some r =>
      let kv := partitionColon l
      (some (rawAdd r kv.1 (pyStrip kv.2)), st.2)

/-- The sequence of stanzas `parse` hands to `pack`, in order (including
the final `self.pack()` at end of input). -/
def parseRecords (lines : List String) : List RawTerm :=
  let st := lines.foldl parseStep (none, [])
  st.2 ++ closeOf st.1

/-- Fold `pack` over the stanza sequence; the first raised exception
aborts parsing, as an uncaught exception does in the source. -/
def packAll : List (String × Entity) → List RawTerm → Except String (List (String × Entity))
  | terms, [] => .ok terms
  | terms, r :: rs =>
    match packRecord terms r with
    | .error e => .error e
    | .ok t' => packAll t' rs

/-- `OBOParser(handle).terms`: the whole term-graph construction. -/
def oboParse (lines : List String) : Except String (List (String × Entity)) :=
  packAll [] (parseRecords lines)

/-- `ControlledVocabulary`: the term dictionary plus the three indices the
constructor derives (id is already the key of `terms`; `_names` maps exact
name to term, `_normalized` maps lower-cased name to canonical name).
The back-pointer each term gets to its vocabulary is omitted (it is only
used by `Entity.parent`, which no claim touches). -/
structure ControlledVocabulary where
  terms : List (String × Entity)
  names : List (String × Entity)
  normalized : List (String × String)
  id : Option String
deriving DecidableEq, Repr

/-- The `_names` index: `{v['name']: v for v in terms.values()}` (later
duplicates overwrite earlier ones). -/
def buildNames (terms : List (String × Entity)) : List (String × Entity) :=
  terms.foldl
    (fun d kv =>
      match kv.2.getStr "name" with
      | some n => dictInsert d n kv.2
      | none => d)
    []

/-- The `_normalized` index: `{v['name'].lower(): v['name'] for v in terms.values()}`. -/
def buildNormalized (terms : List (String × Entity)) : List (String × String) :=
  terms.foldl
    (fun d kv =>
      match kv.2.getStr "name" with
      | some n => dictInsert d (pyLower n) n
      | none => d)
    []

/-- `ControlledVocabulary.__init__`. -/
def ControlledVocabulary.ofTerms (terms : List (String × Entity)) (id : Option String) :
    ControlledVocabulary :=
  ⟨terms, buildNames terms, buildNormalized terms, id⟩

/-- `ControlledVocabulary.__getitem__`: exact id, else exact name, else
case-normalised name (`normalize_name` can itself raise the second
`KeyError`), else a combined not-found error carrying the two missing
keys of the chained exceptions. -/
def ControlledVocabulary.getitem (cv : ControlledVocabulary) (key : String) :
    Except (String × String) Entity :=
  match List.lookup key cv.terms with
  | some t => .ok t
  | none =>
    match List.lookup key cv.names with
    | some t => .ok t
    | none =>
      match List.lookup (pyLower key) cv.normalized with
      | some canonical =>
        match List.lookup canonical cv.names with
        | some t => .ok t
        | none => .error (key, canonical)
      | none => .error (key, pyLower key)

/-- One entry of `VocabularyResolver.vocabularies`: the `cv` element's
short id together with its loaded vocabulary. -/
structure CVEntry where
  id : String
  cv : ControlledVocabulary
deriving DecidableEq, Repr

/-- A parameter value (the source passes numbers or strings through). -/
inductive PValue where
  | int (n : Int)
  | str (s : String)
deriving DecidableEq, Repr

/-- The resolver's output: a free-text `userParam` or a controlled
`cvParam` with its vocabulary reference and optional accession. -/
inductive Param where
  | user (name : String) (value : PValue)
  | cv (name : String) (value : PValue) (ref : String) (accession : Option String)
deriving DecidableEq, Repr

/-- `CVParam.__init__`'s value defaulting: `attrs['value'] = value` when a
value is given, the empty string otherwise. -/
def orEmptyValue : Option PValue → PValue
  | some v => v
  | none => .str ""

/-- The value attribute of a produced parameter. -/
def paramValue : Param → PValue
  | .user _ v => v
  | .cv _ v _ _ => v

/-- One iteration of the resolution loop in `VocabularyResolver.param`:
look the current name up in this vocabulary and, on success, overwrite
name, accession and reference; on any failure keep the state (`except:
pass`).  The three assignments run in order, so a term with a `name`
field but no `id` field updates only the name before the `KeyError`. -/
def resolveStep (st : String × Option String × Option String) (v : CVEntry) :
    String × Option String × Option String :=
  match v.cv.getitem st.1 with
  | .error _ => st
  | .ok term =>
    match term.getStr "name" with
    | none => st
    | some tn =>
      match term.getStr "id" with
      | none => (tn, st.2.1, st.2.2)
      | some tid => (tn, some tid, some v.id)

/-- `VocabularyResolver.param` for a plain string name: when no
`cv_ref` is given the loop runs over *every* configured vocabulary
(it has no break), then the reference decides between a free-text
`UserParam` and a controlled `CVParam`. -/
def VocabularyResolver.param (vocabs : List CVEntry) (name : String)
    (value : Option PValue) (cv_ref : Option String) (accession : Option String) : Param :=
  let st :=
    match cv_ref with
    | none => vocabs.foldl resolveStep (name, accession, none)
    | some r => (name, accession, some r)
  match st.2.2 with
  | none => .user st.1 (orEmptyValue value)
  | some r => .cv st.1 (orEmptyValue value) r st.2.1

/-- `VocabularyResolver.term`: first vocabulary that resolves wins; when
all fail, raise `KeyError(name)`. -/
def VocabularyResolver.term : List CVEntry → String → Except String Entity
  | [], name => .error name
  | v :: rest, name =>
    match v.cv.getitem name with
    | .ok t => .ok t
    | .error _ => VocabularyResolver.term rest name

/-- `id_maker` (components.py): `"%s_%s" % (type_name.upper(), str(id_number))`. -/
def id_maker (type_name : String) (id_number : String) : String :=
  pyUpper type_name ++ "_" ++ id_number

/-- `SpecializedContextCache`: one entity type's namespace of local key to
generated reference string.  Keys are the integer ids the dispatcher uses,
with `none` for Python `None`, the designated no-reference sentinel. -/
structure SpecializedContextCache where
  type_name : String
  entries : List (Option Nat × String)
deriving DecidableEq, Repr

/-- `SpecializedContextCache.__getitem__`: a hit returns the memoized
string; a miss on the `None` sentinel returns `None` silently; any other
miss emits one warning, synthesizes the canonical placeholder with
`id_maker`, memoizes it and returns it.  The result carries the possibly
updated cache and the list of warnings emitted. -/
def cacheGetitem (c : SpecializedContextCache) (key : Option Nat) :
    Option String × SpecializedContextCache × List String :=
  match List.lookup key c.entries with
  | some v => (some v, c, [])
  | none =>
    match key with
    | none => (none, c, [])
    | some k =>
      let v := id_maker c.type_name (toString k)
      (some v, ⟨c.type_name, dictInsert c.entries (some k) v⟩,
       ["No reference was found for " ++ toString k ++ " in " ++ c.type_name])

/-- `DocumentContext`: entity-type name to that type's cache;
`__missing__` creates an empty cache on first access. -/
abbrev DocumentContext := List (String × SpecializedContextCache)

/-- `self.context[entity_type]`, creating the per-type cache on a miss. -/
def getCache (ctx : DocumentContext) (etype : String) :
    SpecializedContextCache × DocumentContext :=
  match List.lookup etype ctx with
  | some c => (c, ctx)
  | none =>
    let c : SpecializedContextCache := ⟨etype, []⟩
    (c, dictInsert ctx etype c)

/-- `self.context[entity_type][key]`: the Symbol Table lookup.  Returns
the resolved string, the updated context, and the warnings emitted. -/
def contextLookup (ctx : DocumentContext) (etype : String) (key : Option Nat) :
    Option String × DocumentContext × List String :=
  let cc := getCache ctx etype
  let r := cacheGetitem cc.1 key
  (r.1, dictInsert cc.2 etype r.2.1, r.2.2)

/-- `ComponentDispatcher.register`: build the reference with `id_maker`,
store it with a plain dictionary assignment (which warns about nothing and
overwrites any memoized entry with the identically generated string), and
return it.  The empty list records that no diagnostic is emitted. -/
def ComponentDispatcher.register (ctx : DocumentContext) (etype : String) (id : Nat) :
    String × DocumentContext × List String :=
  let value := id_maker etype (toString id)
  let cc := getCache ctx etype
  (value, dictInsert cc.2 etype ⟨cc.1.type_name, dictInsert cc.1.entries (some id) value⟩, [])

/-- Fixture: a term named "Electrospray Ionization" for name-lookup tests. -/
def termESI : Entity :=
  ⟨[("id", .str "MS:1000073"), ("name", .str "Electrospray Ionization")], []⟩

/-- Fixture: a vocabulary holding `termESI`. -/
def vocabMS : ControlledVocabulary :=
  .ofTerms [("MS:1000073", termESI)] (some "MS")

/-- Fixture: a term named "foo" with accession `A:1`. -/
def termFooA : Entity := ⟨[("id", .str "A:1"), ("name", .str "foo")], []⟩

/-- Fixture: a second term also named "foo", with accession `B:2`. -/
def termFooB : Entity := ⟨[("id", .str "B:2"), ("name", .str "foo")], []⟩

/-- Fixture: first configured vocabulary, id `V1`, containing `termFooA`. -/
def vocabA : CVEntry := ⟨"V1", .ofTerms [("A:1", termFooA)] (some "V1")⟩

/-- Fixture: second configured vocabulary, id `V2`, containing `termFooB`. -/
def vocabB : CVEntry := ⟨"V2", .ofTerms [("B:2", termFooB)] (some "V2")⟩

/-- Right-cancellation of string concatenation. -/
theorem str_append_cancel_right (a b c : String) (h : a ++ c = b ++ c) : a = b := by
  rcases a with ⟨la⟩
  rcases b with ⟨lb⟩
  rcases c with ⟨lc⟩
  have hd : la ++ lc = lb ++ lc := congrArg String.data h
  exact congrArg String.mk (List.append_cancel_right hd)

/-- Skipped lines: while no stanza accumulator is open, any line that is
not one of the two headers leaves the parser state unchanged. -/
theorem foldl_parseStep_skip (pre : List String)
    (h : ∀ l ∈ pre, pyStrip l ≠ "[Term]" ∧ pyStrip l ≠ "[Typedef]") (out : List RawTerm) :
    List.foldl parseStep (none, out) pre = (none, out) := by
  induction pre with
  | nil => rfl
  | cons l rest ih =>
    have hl := h l (by simp)
    have hstep : parseStep (none, out) l = (none, out) := by
      by_cases hb : pyStrip l = ""
      · simp [parseStep, hb]
      · simp [parseStep, hb, hl.1, hl.2]
    rw [List.foldl_cons, hstep]
    exact ih fun x hx => h x (by simp [hx])

/-- Evaluation of the parser step on a `[Typedef]` header. -/
theorem parseStep_typedef (st : Option RawTerm × List RawTerm) :
    parseStep st "[Typedef]" = (none, st.2 ++ closeOf st.1) := by
  have e1 : pyStrip "[Typedef]" = "[Typedef]" := by decide
  simp [parseStep, e1]

/-- C1 counterexample: a term whose `is_a` names the absent parent
`X:99` does *not* make graph construction fail — `oboParse` returns
success, with the term inserted, unlinked, and its `is_a` left as the
raw string. -/
theorem c1_counterexample :
    oboParse ["[Term]", "id: X:2", "is_a: X:99 ! nope"] =
      .ok [("X:2", ⟨[("id", .str "X:2"), ("is_a", .str "X:99 ! nope")], []⟩)] := by
  decide

/-- C1 (amended): when a record's scalar `is_a` names a parent accession
absent from the graph, `pack` swallows the `KeyError` raised by the parent
lookup: construction succeeds, the term is inserted with its `is_a` field
still the raw unparsed string, and no term's child list gains the entity. -/
theorem c1_dangling_parent_tolerated (terms : List (String × Entity)) (tid ia : String)
    (hmiss : List.lookup (Reference.fromstring ia).accession terms = none) :
    packRecord terms [("id", [tid]), ("is_a", [ia])] =
      .ok (dictInsert terms tid ⟨[("id", .str tid), ("is_a", .str ia)], []⟩) := by
  simp [packRecord, fieldsOfRaw, idStrOf, relStrings, List.lookup, hmiss]

/-- C1 witness: the amended statement applied to the concrete dangling
reference of the counterexample. -/
theorem c1_dangling_parent_tolerated_witness :
    packRecord [] [("id", ["X:2"]), ("is_a", ["X:99 ! nope"])] =
      .ok (dictInsert [] "X:2" ⟨[("id", .str "X:2"), ("is_a", .str "X:99 ! nope")], []⟩) :=
  c1_dangling_parent_tolerated [] "X:2" "X:99 ! nope" (by decide)

/-- C2 counterexample: with two configured vocabularies both holding a
term named "foo", the parameter takes its accession and reference from
the SECOND vocabulary (`V2`/`B:2`), not the first (`V1`/`A:1`). -/
theorem c2_counterexample :
    VocabularyResolver.param [vocabA, vocabB] "foo" none none none =
      Param.cv "foo" (.str "") "V2" (some "B:2") ∧ ("V2" : String) ≠ "V1" := by
  decide

/-- C2 (amended): with no explicit vocabulary reference, the resolution
loop visits every configured vocabulary without breaking, so when several
vocabularies resolve the name, the LAST one in configured order supplies
the canonical name, accession and vocabulary reference of the returned
controlled parameter. -/
theorem c2_last_vocabulary_wins (va vb : CVEntry) (t1 t2 : Entity)
    (n i1 n2 i2 : String) (value : Option PValue)
    (h1 : va.cv.getitem n = .ok t1) (h1n : t1.getStr "name" = some n)
    (h1i : t1.getStr "id" = some i1)
    (h2 : vb.cv.getitem n = .ok t2) (h2n : t2.getStr "name" = some n2)
    (h2i : t2.getStr "id" = some i2) :
    VocabularyResolver.param [va, vb] n value none none =
      .cv n2 (orEmptyValue value) vb.id (some i2) := by
  simp [VocabularyResolver.param, resolveStep, h1, h1n, h1i, h2, h2n, h2i]

/-- C2 witness: the amended statement applied to the two concrete
vocabularies of the counterexample. -/
theorem c2_last_vocabulary_wins_witness :
    VocabularyResolver.param [vocabA, vocabB] "foo" (some (.int 5)) none none =
      .cv "foo" (orEmptyValue (some (.int 5))) vocabB.id (some "B:2") :=
  c2_last_vocabulary_wins vocabA vocabB termFooA termFooB "foo" "A:1" "foo" "B:2"
    (some (.int 5)) (by decide) (by decide) (by decide) (by decide) (by decide) (by decide)

/-- C3: starting from an empty context, the Symbol Table lookup of
(`Sample`, 7) before any registration returns the canonical placeholder
`SAMPLE_7` and emits exactly one diagnostic; the subsequent
`register("Sample", 7)` returns the identical string with no new
diagnostic, and a further lookup still observes the same string. -/
theorem c3_symbol_table_stable :
    (contextLookup [] "Sample" (some 7)).1 = some "SAMPLE_7" ∧
    (contextLookup [] "Sample" (some 7)).2.2 =
      ["No reference was found for 7 in Sample"] ∧
    (ComponentDispatcher.register (contextLookup [] "Sample" (some 7)).2.1 "Sample" 7).1 =
      "SAMPLE_7" ∧
    (ComponentDispatcher.register (contextLookup [] "Sample" (some 7)).2.1 "Sample" 7).2.2 =
      [] ∧
    (contextLookup
      (ComponentDispatcher.register (contextLookup [] "Sample" (some 7)).2.1 "Sample" 7).2.1
      "Sample" (some 7)).1 = some "SAMPLE_7" ∧
    (contextLookup
      (ComponentDispatcher.register (contextLookup [] "Sample" (some 7)).2.1 "Sample" 7).2.1
      "Sample" (some 7)).2.2 = [] := by
  decide

/-- C4 counterexample: the greedy predicate token keeps the colon, so the
spec's expected `part_of` predicate is not what `fromstring` returns. -/
theorem c4_counterexample :
    Relationship.fromstring "part_of: MS:1000031 ! instrument model" ≠
      .ok ⟨"part_of", "MS:1000031", some "instrument model"⟩ := by
  decide

/-- C4 (amended): parsing `"part_of: MS:1000031 ! instrument model"`
yields predicate `"part_of:"` (the greedy `\S+` consumes the colon before
the optional `:?` can), accession `"MS:1000031"`, and comment
`"instrument model"`. -/
theorem c4_predicate_keeps_colon :
    Relationship.fromstring "part_of: MS:1000031 ! instrument model" =
      .ok ⟨"part_of:", "MS:1000031", some "instrument model"⟩ := by
  decide

/-- C5: on the comment-free relationship form `predicate ACCESSION` the
pattern cannot match (its comment group is mandatory), `re.search` returns
`None`, and `fromstring` raises instead of returning a comment-less
`Relationship`. -/
theorem c5_commentless_relationship_raises :
    Relationship.fromstring "part_of MS:1000031" = .error "AttributeError" := by
  decide

/-- C6: on a vocabulary holding a term named "Electrospray Ionization",
lookup by exact id succeeds, lookup by exact name succeeds, the
case-normalized lookup of "electrospray ionization" returns the same
term, and a key present in no index raises the combined not-found error. -/
theorem c6_lookup_precedence :
    vocabMS.getitem "MS:1000073" = .ok termESI ∧
    vocabMS.getitem "Electrospray Ionization" = .ok termESI ∧
    vocabMS.getitem "electrospray ionization" = .ok termESI ∧
    vocabMS.getitem "electrospray ionization" = vocabMS.getitem "Electrospray Ionization" ∧
    vocabMS.getitem "thermo instrument" = .error ("thermo instrument", "thermo instrument") := by
  decide

/-- C7 counterexample: the entity-type names "Sample" and "SAMPLE" are
distinct, yet registering the same local key under them produces the same
generated string, because `id_maker` upper-cases the type name. -/
theorem c7_counterexample :
    ("Sample" : String) ≠ "SAMPLE" ∧
    (ComponentDispatcher.register [] "Sample" 1).1 =
      (ComponentDispatcher.register [] "SAMPLE" 1).1 := by
  decide

/-- C7 (amended): two entity types whose names differ after upper-casing
never produce colliding reference strings for the same local key; in
particular `register("Sample", 1)` and `register("Software", 1)` differ. -/
theorem c7_uppercase_distinct_no_collision (t1 t2 : String) (k : Nat)
    (ctx1 ctx2 : DocumentContext) (h : pyUpper t1 ≠ pyUpper t2) :
    (ComponentDispatcher.register ctx1 t1 k).1 ≠
      (ComponentDispatcher.register ctx2 t2 k).1 := by
  intro heq
  apply h
  have h2 : pyUpper t1 ++ "_" ++ toString k = pyUpper t2 ++ "_" ++ toString k := heq
  exact str_append_cancel_right _ _ "_"
    (str_append_cancel_right _ _ (toString k) h2)

/-- C7 witness: the amended statement at `register("Sample", 1)` versus
`register("Software", 1)`. -/
theorem c7_uppercase_distinct_no_collision_witness :
    (ComponentDispatcher.register [] "Sample" 1).1 ≠
      (ComponentDispatcher.register [] "Software" 1).1 :=
  c7_uppercase_distinct_no_collision "Sample" "Software" 1 [] [] (by decide)

/-- C8: with an empty vocabulary list, `param` on any unknown name never
fails and returns a free-text parameter carrying the given name and
value, while the direct `term` lookup on the same name raises a
not-found error naming the key. -/
theorem c8_empty_vocabulary_contract (name : String) (value : PValue) :
    VocabularyResolver.param [] name (some value) none none = .user name value ∧
    VocabularyResolver.term [] name = .error name :=
  ⟨rfl, rfl⟩

/-- C8 witness: the contract at the spec's concrete example
`make_parameter("totally unknown term", value=5)`. -/
theorem c8_empty_vocabulary_contract_witness :
    VocabularyResolver.param [] "totally unknown term" (some (.int 5)) none none =
      .user "totally unknown term" (.int 5) ∧
    VocabularyResolver.term [] "totally unknown term" = .error "totally unknown term" :=
  c8_empty_vocabulary_contract "totally unknown term" (.int 5)

/-- C9: every line that is not a stanza header is discarded while no
accumulator is open — before the first `[Term]` header, and likewise
after a `[Typedef]` header until the next `[Term]`: the emitted stanza
sequence is the same as if those lines were absent. -/
theorem c9_preamble_lines_discarded (pfx pre rest : List String)
    (h : ∀ l ∈ pre, pyStrip l ≠ "[Term]" ∧ pyStrip l ≠ "[Typedef]") :
    parseRecords (pre ++ rest) = parseRecords rest ∧
    parseRecords (pfx ++ "[Typedef]" :: (pre ++ rest)) =
      parseRecords (pfx ++ "[Typedef]" :: rest) := by
  constructor
  · unfold parseRecords
    rw [List.foldl_append, foldl_parseStep_skip pre h []]
  · unfold parseRecords
    rw [List.foldl_append, List.foldl_append, List.foldl_cons, List.foldl_cons,
      parseStep_typedef, List.foldl_append, foldl_parseStep_skip pre h]

/-- C9 witness: concrete preamble lines before the first `[Term]` and
field lines after a `[Typedef]` stanza contribute to no record. -/
theorem c9_preamble_lines_discarded_witness :
    parseRecords (["format-version: 1.2", "remark: header"] ++ ["[Term]", "id: X:1"]) =
      parseRecords ["[Term]", "id: X:1"] ∧
    parseRecords (["[Term]", "id: X:0"] ++ "[Typedef]" ::
        (["format-version: 1.2", "remark: header"] ++ ["[Term]", "id: X:1"])) =
      parseRecords (["[Term]", "id: X:0"] ++ "[Typedef]" :: ["[Term]", "id: X:1"]) :=
  c9_preamble_lines_discarded ["[Term]", "id: X:0"]
    ["format-version: 1.2", "remark: header"] ["[Term]", "id: X:1"] (by decide)

/-- C10: a parameter built by the resolver with no value carries the
empty string as its value, in both the free-text and the controlled
branch, whatever the vocabularies and the explicit reference/accession. -/
theorem c10_absent_value_empty_string (vocabs : List CVEntry) (name : String)
    (cv_ref accession : Option String) :
    paramValue (VocabularyResolver.param vocabs name none cv_ref accession) = .str "" := by
  unfold VocabularyResolver.param
  cases cv_ref with
  | some r => simp [paramValue, orEmptyValue]
  | none =>
    rcases hst : (List.foldl resolveStep (name, accession, none) vocabs).2.2 with _ | r <;>
      simp [hst, paramValue, orEmptyValue]
